import Mathlib

/-!
Verification of the scrypted-llm-notifier plugin (`src/main.ts`).

The development shallowly embeds the functions of `src/main.ts` that the
specification's claims are about:

* `resizeJpegNearest` (lines 30-53): the nearest-neighbor JPEG downscaler.
  The external `jpeg-js` codec is passed in as parameters: `decode` models
  `jpeg.decode` (which fails on malformed input — the spec's ImageCodec
  contract calls this `DecodeError` — and which the source does not catch
  inside `resizeJpegNearest`), and `encode` models `jpeg.encode`.
* `buildImageList` (lines 60-73): snapshot assembly per configured mode.
* `LLMNotifierProvider.selectProvider` (lines 401-411): round-robin provider
  selection over the configured `chatCompletions` list.
* `LLMNotifier.sendNotification` (lines 152-292): the orchestration.  The
  outcomes of the external calls the method makes (media conversion, the
  full-frame fetch/rescale block, the chat-completion call under its timeout,
  `JSON.parse`, and each call to the downstream `mixinDevice.sendNotification`)
  are supplied by an `Env` record, in the order the source makes them; the
  model records the list of downstream calls made, the value/rejection seen by
  the caller, the final counters, and the caller-visible final state of the
  `options` object (which the source mutates in place at lines 282-284).

JavaScript numbers are modelled by `Nat` (pixel coordinates, byte values,
counters) and by `ℚ` (the operator-configured timeout, which need not be an
integer); JS `Math.floor` of a nonnegative quotient is `Nat` division and
`Math.round` is half-up rounding (`jsRound`).  JS string truthiness (empty
string is falsy) is modelled explicitly where the source relies on it.
-/

/-- A decoded raster image as returned by the external jpeg decoder
(`jpeg.decode` with `useTArray`): flat byte buffer in row-major RGBA order
(4 bytes per pixel) plus dimensions. -/
structure Img where
  width : Nat
  height : Nat
  data : List Nat
  deriving Repr, DecidableEq

/-- JavaScript `Math.round (a / b)` for natural `a` and positive `b`:
half-up rounding of the exact quotient, i.e. `⌊a / b + 1 / 2⌋`. -/
def jsRound (a b : Nat) : Nat :=
  (2 * a + b) / (2 * b)

/-- The 4 bytes written for destination pixel `(x, y)` by the loop body of
`resizeJpegNearest` (src/main.ts lines 40-48): the nearest source pixel is
`sy = ⌊y·sh/dh⌋`, `sx = ⌊x·sw/dw⌋`; the three color bytes are copied from
source byte index `(sy·sw + sx) * 4` (`<< 2` in the source) and the alpha
byte is forced to 255. -/
def resizePixel (src : Img) (dw dh x y : Nat) : List Nat :=
  let sy := y * src.height / dh
  let sx := x * src.width / dw
  let si := (sy * src.width + sx) * 4
  [src.data.getD si 0, src.data.getD (si + 1) 0, src.data.getD (si + 2) 0, 255]

/-- The loop nest of `resizeJpegNearest`: rows `y < dh` outermost, columns
`x < dw` inner, 4 bytes per destination pixel at offset `(y·dw + x) * 4`. -/
def resizeData (src : Img) (dw dh : Nat) : List Nat :=
  (List.range dh).flatMap fun y =>
    (List.range dw).flatMap fun x => resizePixel src dw dh x y

/-- `resizeJpegNearest` (src/main.ts lines 30-53).  `decode` and `encode` are
the external jpeg codec; a `decode` failure (malformed input) is not caught by
the source function and therefore propagates.  When decoding succeeds but
reports a zero dimension, or when `targetWidth ≥ sourceWidth`
(`dw = min targetWidth sw = sw`), the input bytes are returned unchanged.
Otherwise the destination height is `max 1 (round (sh·dw/sw))` and the
resized RGBA buffer is re-encoded at the given quality. -/
def resizeJpegNearest (decode : List Nat → Except String Img)
    (encode : Img → Nat → List Nat) (input : List Nat) (targetWidth quality : Nat) :
    Except String (List Nat) :=
  match decode input with
  | .error e => .error e
  | .ok src =>
    if src.width = 0 || src.height = 0 then .ok input
    else
      let dw := min targetWidth src.width
      if dw = src.width then .ok input
      else
        let dh := max 1 (jsRound (src.height * dw) src.width)
        .ok (encode ⟨dw, dh, resizeData src dw dh⟩ quality)

/-- JavaScript truthiness of an optional string argument: `undefined` and the
empty string are falsy. -/
def strTruthy : Option String → Bool
  | none => false
  | some s => !s.isEmpty

/-- `buildImageList` (src/main.ts lines 60-73): chooses the ordered list of
image data-URLs per snapshot mode.  Any mode other than `both` and `full`
takes the final (`cropped`) branch, which prefers the cropped image and falls
back to the full one. -/
def buildImageList (mode : String) (full cropped : Option String) : List String :=
  if mode = "both" then
    (if strTruthy full then [full.getD ""] else [])
      ++ (if strTruthy cropped then [cropped.getD ""] else [])
  else if mode = "full" then
    if strTruthy full then [full.getD ""]
    else if strTruthy cropped then [cropped.getD ""]
    else []
  else
    if strTruthy cropped then [cropped.getD ""]
    else if strTruthy full then [full.getD ""]
    else []

/-- The state of `LLMNotifierProvider` relevant to provider selection:
the configured provider-id list (`none` models an unset/null
`chatCompletions` setting) and the rotation cursor
(`currentProviderIndex`, initialized to 0 in the source). -/
structure ProviderState where
  chatCompletions : Option (List String)
  currentProviderIndex : Nat
  deriving Repr, DecidableEq

/-- `selectProvider` (src/main.ts lines 401-411): throws
`No LLM providers selected` when the configured list is null or empty,
before any array access; otherwise reads the id at the cursor (JS indexing
out of range yields `undefined`, modelled by `getD` with default) and
advances the cursor modulo the list length. -/
def selectProvider (s : ProviderState) : Except String (String × ProviderState) :=
  match s.chatCompletions with
  | none => .error "No LLM providers selected"
  | some providerIds =>
    if providerIds.length = 0 then .error "No LLM providers selected"
    else
      .ok (providerIds.getD s.currentProviderIndex "",
        { s with currentProviderIndex := (s.currentProviderIndex + 1) % providerIds.length })

/-- The sequence of provider ids produced by `n` consecutive `selectProvider`
calls, threading the cursor; an empty/null configuration stops the run. -/
def runSelections (s : ProviderState) : Nat → List String
  | 0 => []
  | n + 1 =>
    match selectProvider s with
    | .error _ => []
    | .ok (pid, s') => pid :: runSelections s' n

example : runSelections ⟨some ["a", "b", "c"], 0⟩ 4 = ["a", "b", "c", "a"] := by decide

/-- The process-wide `notificationStats` counters of `LLMNotifier`
(src/main.ts lines 146-150). -/
structure Stats where
  withSnapshot : Nat
  withoutSnapshot : Nat
  total : Nat
  deriving Repr, DecidableEq

/-- The `media` argument of `sendNotification`: either an already-resolved
string reference or an opaque media object (whose jpeg conversion outcome is
part of the environment). -/
inductive MediaIn where
  | url (s : String)
  | obj (tag : Nat)
  deriving Repr, DecidableEq

/-- JS falsiness of the `media` argument (line 160: `!media`): `undefined`
and the empty string are falsy; a media object is truthy. -/
def mediaFalsy : Option MediaIn → Bool
  | none => true
  | some (.url s) => s.isEmpty
  | some (.obj _) => false

/-- The fields of the `options` argument that the pipeline reads or writes
(`subtitle`, `body`).  The remaining fields (`recordedEvent`, `data`, …) are
only read by the full-frame block, whose outcome is carried by `Env`. -/
structure NotifierOptions where
  subtitle : Option String
  body : Option String
  deriving Repr, DecidableEq

/-- One call made to the downstream notifier `mixinDevice.sendNotification`,
with the four arguments the source passes. -/
structure Call where
  title : String
  options : Option NotifierOptions
  media : Option MediaIn
  icon : Option String
  deriving Repr, DecidableEq

/-- A JSON value at one of the three expected fields of the parsed LLM
response: a string, or anything failing the `typeof · === string` check. -/
inductive JsonVal where
  | str (s : String)
  | nonStr
  deriving Repr, DecidableEq

/-- The destructured fields of the parsed LLM response
(`const { title: newTitle, subtitle, body } = json`, line 273); a field
absent from the parsed object destructures to `undefined` (`none`). -/
structure ParsedJson where
  title : Option JsonVal
  subtitle : Option JsonVal
  body : Option JsonVal
  deriving Repr, DecidableEq

/-- The environment of one `sendNotification` call: the configuration values
read from `llmProvider.storageSettings` and the outcomes of the external
calls the method makes, in source order.

* `convertCropped`: outcome of `mediaManager.convertMediaObjectToBuffer(media)`
  (line 175), as the base64 text of the buffer; used only when `media` is an
  object.  This `await` sits outside every try/catch in the source.
* `fullFrame`: outcome of the body of the full-frame block (lines 183-219)
  when the mode is not `cropped`: `ok (some url)` if a full-frame data-URL was
  produced (after the internal resize-or-fall-back-to-unresized logic),
  `ok none` if the block found no detection ids / capable device, `error` if
  the block threw — the catch at line 220 swallows it.
* `llm`: outcome of `withTimeout (device.getChatCompletion …)` (line 262)
  followed by the `data.choices[0].message.content` access: `error` for a
  rejection, a timeout, or a missing choice; `ok none` for a null content;
  `ok (some s)` for string content `s`.
* `parse`: the behavior of `JSON.parse` on the content string, as the
  destructured three fields.
* `downstream`: the outcome of the i-th call (0-based) this invocation makes
  to `mixinDevice.sendNotification`. -/
structure Env where
  enabled : Bool
  snapshotMode : String
  userPrompt : String
  includeOriginalMessage : Bool
  llmTimeoutSetting : Option ℚ
  convertCropped : Except String String
  fullFrame : Except String (Option String)
  llm : Except String (Option String)
  parse : String → Except String ParsedJson
  downstream : Nat → Except String Unit

deriving instance DecidableEq for Except

/-- Everything observable about one `sendNotification` invocation: the
downstream calls made (in order), the value or rejection the caller of
`sendNotification` sees, the final counters, the caller-visible final state
of the `options` object (the source mutates it in place at lines 282-284;
when the caller passed no options, line 282 creates a fresh object the
caller never sees), and the final provider-rotation state. -/
structure SendResult where
  calls : List Call
  result : Except String Unit
  stats : Stats
  optionsAfter : Option NotifierOptions
  provider : ProviderState
  deriving Repr, DecidableEq

/-- The timeout computation of src/main.ts lines 259-260:
`timeoutSec = values.llmTimeoutMs ?? 90; llmTimeout = max(1, Number(timeoutSec)) * 1000`.
The configured value is a JS number (the settings field has type `number`),
so `Number` is the identity on it; it is modelled by `ℚ` since nothing
coerces it to an integer. -/
def llmTimeoutOf (setting : Option ℚ) : ℚ :=
  max 1 (setting.getD 90) * 1000

/-- `LLMNotifier.sendNotification` (src/main.ts lines 152-292), stage by
stage:

1. `total` is incremented (line 157).
2. If `media` is falsy or enhancement is disabled (line 160): increment
   `withoutSnapshot` and forward the original arguments (line 163); the
   downstream outcome is returned to the caller un-caught.
3. Otherwise increment `withSnapshot` (line 166) and resolve `imageUrl`
   (lines 171-179): a string media is used as-is; an object media is
   converted to a buffer and a base64 data-URL.  The conversion `await` is
   outside every try/catch: its failure rejects the whole call with **no**
   downstream call made.
4. The full-frame block (lines 182-222): only consulted when the effective
   mode (`values.snapshotMode || cropped`, empty string falsy) is not
   `cropped`; a throw anywhere in its body is caught at line 220 leaving
   `fullFrameUrl` undefined.
5. `buildImageList` (line 242); if empty, forward the original arguments
   (line 246), downstream outcome returned un-caught.
6. The try block (lines 255-292): provider selection, the LLM call under
   `withTimeout`, the empty-content check, `JSON.parse`, and the
   three-string type check each throw into the catch at line 288, which
   forwards the original title with the *current* `options` object.  On a
   validated response the source mutates `options` (creating a fresh object
   only if the caller passed none) and forwards the new title **inside the
   try** (line 286): a downstream rejection there is caught and triggers a
   second downstream call from the catch. -/
def sendNotification (env : Env) (ps : ProviderState) (stats0 : Stats)
    (title : String) (options : Option NotifierOptions)
    (media : Option MediaIn) (icon : Option String) : SendResult :=
  let stats1 := { stats0 with total := stats0.total + 1 }
  if mediaFalsy media || !env.enabled then
    let stats := { stats1 with withoutSnapshot := stats1.withoutSnapshot + 1 }
    { calls := [⟨title, options, media, icon⟩], result := env.downstream 0,
      stats := stats, optionsAfter := options, provider := ps }
  else
    let stats := { stats1 with withSnapshot := stats1.withSnapshot + 1 }
    let imageUrlE : Except String String :=
      match media with
      | some (.url s) => .ok s
      | _ => env.convertCropped.map (fun b64 => "data:image/jpeg;base64," ++ b64)
    match imageUrlE with
    | .error e =>
      { calls := [], result := .error e, stats := stats,
        optionsAfter := options, provider := ps }
    | .ok imageUrl =>
      let snapshotMode := if env.snapshotMode = "" then "cropped" else env.snapshotMode
      let fullFrameUrl : Option String :=
        if snapshotMode = "cropped" then none
        else
          match env.fullFrame with
          | .error _ => none
          | .ok v => v
      let imageUrls := buildImageList snapshotMode fullFrameUrl (some imageUrl)
      if imageUrls.isEmpty then
        { calls := [⟨title, options, media, icon⟩], result := env.downstream 0,
          stats := stats, optionsAfter := options, provider := ps }
      else
        match selectProvider ps with
        | .error _ =>
          { calls := [⟨title, options, media, icon⟩], result := env.downstream 0,
            stats := stats, optionsAfter := options, provider := ps }
        | .ok (_pid, ps') =>
          let fallback : SendResult :=
            { calls := [⟨title, options, media, icon⟩], result := env.downstream 0,
              stats := stats, optionsAfter := options, provider := ps' }
          match env.llm with
          | .error _ => fallback
          | .ok none => fallback
          | .ok (some content) =>
            if content.isEmpty then fallback
            else
              match env.parse content with
              | .error _ => fallback
              | .ok json =>
                match json.title, json.subtitle, json.body with
                | some (.str newTitle), some (.str subtitle), some (.str body) =>
                  let options' : NotifierOptions :=
                    { options.getD ⟨none, none⟩ with
                        body := some body, subtitle := some subtitle }
                  let optionsAfter : Option NotifierOptions :=
                    match options with
                    | none => none
                    | some _ => some options'
                  match env.downstream 0 with
                  | .ok _ =>
                    { calls := [⟨newTitle, some options', media, icon⟩],
                      result := .ok (), stats := stats,
                      optionsAfter := optionsAfter, provider := ps' }
                  | .error _ =>
                    { calls := [⟨newTitle, some options', media, icon⟩,
                        ⟨title, some options', media, icon⟩],
                      result := env.downstream 1, stats := stats,
                      optionsAfter := optionsAfter, provider := ps' }
                | _, _, _ => fallback

/-- Concrete environment: enhancement enabled, mode `cropped`, and the jpeg
conversion of the attached media object rejects (line 175). -/
def envConvFail : Env :=
  ⟨true, "cropped", "style", true, none, .error "convert failed", .ok none,
    .error "unused", fun _ => .error "unused", fun _ => .ok ()⟩

/-- Concrete environment: the whole enhancement succeeds (conversion ok, LLM
returns a validated three-string response) but the downstream notifier
rejects the first (enhanced) send and accepts the second. -/
def envDupSend : Env :=
  ⟨true, "cropped", "style", true, none, .ok "QUJD", .ok none,
    .ok (some "llm-json"),
    fun _ => .ok ⟨some (.str "New Title"), some (.str "New Sub"), some (.str "New Body")⟩,
    fun i => if i = 0 then .error "downstream failed" else .ok ()⟩

/-- Concrete environment: the whole enhancement succeeds and the downstream
notifier accepts. -/
def envEnhanceOk : Env :=
  ⟨true, "cropped", "style", true, none, .ok "QUJD", .ok none,
    .ok (some "llm-json"),
    fun _ => .ok ⟨some (.str "New Title"), some (.str "New Sub"), some (.str "New Body")⟩,
    fun _ => .ok ()⟩

example :
    (sendNotification envConvFail ⟨some ["p1"], 0⟩ ⟨0, 0, 0⟩ "Orig title"
      (some ⟨some "orig sub", some "orig body"⟩) (some (.obj 0)) (some "icon")).calls = [] := by
  decide

example :
    (sendNotification envDupSend ⟨some ["p1"], 0⟩ ⟨0, 0, 0⟩ "Orig title"
      (some ⟨some "orig sub", some "orig body"⟩) (some (.obj 0)) (some "icon")).calls.length
      = 2 := by
  decide

example :
    (sendNotification envEnhanceOk ⟨some ["p1"], 0⟩ ⟨0, 0, 0⟩ "Orig title"
      (some ⟨some "orig sub", some "orig body"⟩) (some (.obj 0)) (some "icon")).optionsAfter
      = some ⟨some "New Sub", some "New Body"⟩ := by
  decide

/-- On a non-empty configured list, `selectProvider` returns the id at the
cursor and advances the cursor modulo the list length. -/
lemma selectProvider_ok (ids : List String) (c : Nat) (h : ids ≠ []) :
    selectProvider ⟨some ids, c⟩
      = .ok (ids.getD c "", ⟨some ids, (c + 1) % ids.length⟩) := by
  unfold selectProvider
  simp [List.length_eq_zero, h]

/-- Closed form of `runSelections` on a non-empty list from a valid cursor:
the k-th selection (0-based) is the id at `(c + k) mod length`. -/
lemma runSelections_formula (ids : List String) (h : ids ≠ []) :
    ∀ (n c : Nat), c < ids.length →
      runSelections ⟨some ids, c⟩ n
        = (List.range n).map fun k => ids.getD ((c + k) % ids.length) "" := by
  intro n
  induction n with
  | zero => intro c _; simp [runSelections]
  | succ n ih =>
    intro c hc
    rw [runSelections, selectProvider_ok ids c h, List.range_succ_eq_map]
    simp only [List.map_cons, List.map_map]
    have hpos : 0 < ids.length := List.length_pos.mpr h
    congr 1
    · rw [Nat.add_zero, Nat.mod_eq_of_lt hc]
    · rw [ih ((c + 1) % ids.length) (Nat.mod_lt _ hpos)]
      apply List.map_congr_left
      intro k _
      simp only [Function.comp_apply]
      congr 1
      rw [Nat.mod_add_mod]
      congr 1
      omega

/-- Reading every index of a list via `getD` reproduces the list. -/
lemma range_map_getD (ids : List String) :
    ((List.range ids.length).map fun k => ids.getD (k % ids.length) "") = ids := by
  apply List.ext_getElem
  · simp
  · intro i h1 h2
    simp only [List.getElem_map, List.getElem_range]
    rw [Nat.mod_eq_of_lt h2, List.getD_eq_getElem ids "" h2]

/-- Length of a `flatMap` over `range n` whose blocks all have length `k`. -/
lemma flatMap_range_length {β : Type} (f : Nat → List β) (n k : Nat)
    (hf : ∀ j, (f j).length = k) : ((List.range n).flatMap f).length = n * k := by
  induction n with
  | zero => simp
  | succ n ih =>
    rw [List.range_succ, List.flatMap_append]
    simp [ih, hf, Nat.succ_mul]

/-- Indexing into a `flatMap` over `range n` with constant block length `k`:
the byte at offset `i * k + c` is the byte at offset `c` of block `i`. -/
lemma flatMap_range_getD {β : Type} (f : Nat → List β) (n k i c : Nat) (d : β)
    (hf : ∀ j, (f j).length = k) (hi : i < n) (hc : c < k) :
    ((List.range n).flatMap f).getD (i * k + c) d = (f i).getD c d := by
  induction n with
  | zero => omega
  | succ n ih =>
    rw [List.range_succ, List.flatMap_append]
    have hlen : ((List.range n).flatMap f).length = n * k := flatMap_range_length f n k hf
    rcases Nat.lt_or_ge i n with hin | hin
    · rw [List.getD_append]
      · exact ih hin
      · rw [hlen]
        calc i * k + c < i * k + k := by omega
          _ = (i + 1) * k := by ring
          _ ≤ n * k := Nat.mul_le_mul_right k hin
    · have hieq : i = n := by omega
      subst hieq
      rw [List.getD_append_right]
      · rw [hlen]
        simp only [List.flatMap_cons, List.flatMap_nil, List.append_nil]
        congr 1
        omega
      · rw [hlen]
        exact Nat.le_add_right _ _

/-- Every byte of the resized buffer: the byte at channel `c` of destination
pixel `(x, y)` is 255 for the alpha channel and otherwise the corresponding
color byte of the nearest source pixel. -/
lemma resizeData_getD (src : Img) (dw dh x y c : Nat)
    (hx : x < dw) (hy : y < dh) (hc : c < 4) :
    (resizeData src dw dh).getD ((y * dw + x) * 4 + c) 0
      = if c = 3 then 255
        else src.data.getD
          ((y * src.height / dh * src.width + x * src.width / dw) * 4 + c) 0 := by
  unfold resizeData
  have hrow : ∀ j, ((List.range dw).flatMap fun x => resizePixel src dw dh x j).length
      = dw * 4 := by
    intro j
    exact flatMap_range_length (fun x => resizePixel src dw dh x j) dw 4 (fun _ => rfl)
  have hidx : (y * dw + x) * 4 + c = y * (dw * 4) + (x * 4 + c) := by ring
  rw [hidx,
    flatMap_range_getD (fun j => (List.range dw).flatMap fun x => resizePixel src dw dh x j)
      dh (dw * 4) y (x * 4 + c) 0 hrow hy (by omega),
    flatMap_range_getD (fun x => resizePixel src dw dh x y) dw 4 x c 0 (fun _ => rfl) hx hc]
  unfold resizePixel
  interval_cases c <;> simp [List.getD]

/-- Claim C3, counterexample: in mode `cropped` with the cropped image
missing and a full image present, `buildImageList` returns `[full]`, not the
empty list the claim states (the final branch of the source, lines 68-71,
falls back to the full image). -/
theorem c3_cropped_mode_counterexample :
    buildImageList "cropped" (some "full-url") none = ["full-url"]
    ∧ buildImageList "cropped" (some "full-url") none ≠ [] := by
  decide

/-- Claim C3 as amended: the mode table of `buildImageList`, with the one
corrected entry — mode `cropped` with cropped missing falls back to `[full]`
when a full image is present (and `[]` only when both are missing).  All
other entries are as the claim states.  Presence is JS truthiness: a present
image is a non-empty string. -/
theorem c3_mode_table (fs cs : String) (hf : fs.isEmpty = false)
    (hc : cs.isEmpty = false) :
    buildImageList "both" (some fs) (some cs) = [fs, cs]
    ∧ buildImageList "both" none (some cs) = [cs]
    ∧ buildImageList "both" (some fs) none = [fs]
    ∧ buildImageList "both" none none = []
    ∧ buildImageList "full" (some fs) (some cs) = [fs]
    ∧ buildImageList "full" none (some cs) = [cs]
    ∧ buildImageList "full" (some fs) none = [fs]
    ∧ buildImageList "full" none none = []
    ∧ buildImageList "cropped" (some fs) (some cs) = [cs]
    ∧ buildImageList "cropped" none (some cs) = [cs]
    ∧ buildImageList "cropped" (some fs) none = [fs]
    ∧ buildImageList "cropped" none none = [] := by
  refine ⟨?_, ?_, ?_, ?_, ?_, ?_, ?_, ?_, ?_, ?_, ?_, ?_⟩ <;>
    simp [buildImageList, strTruthy, hf, hc]

/-- Witness for `c3_mode_table` at concrete non-empty images. -/
theorem c3_mode_table_witness :
    ("f" : String).isEmpty = false ∧ buildImageList "both" (some "f") (some "c") = ["f", "c"] :=
  ⟨by decide, (c3_mode_table "f" "c" (by decide) (by decide)).1⟩

/-- Claim C5, counterexample: when the decoder fails (malformed input — the
spec's own ImageCodec contract says `decode` fails with `DecodeError` on
malformed input, and `jpeg.decode` is not wrapped in any try/catch inside
`resizeJpegNearest`), the error propagates out of `resizeJpegNearest`
instead of the input bytes being returned unchanged.  The caller at
src/main.ts line 211 indeed catches exactly this escalation. -/
theorem c5_decode_error_counterexample :
    resizeJpegNearest (fun _ => .error "SOI not found") (fun _ _ => []) [7] 9 60
      = .error "SOI not found"
    ∧ (Except.error "SOI not found" : Except String (List Nat)) ≠ .ok [7] := by
  exact ⟨rfl, by decide⟩

/-- Claim C5 as amended: `resizeJpegNearest` returns the input bytes
unchanged, without error, whenever decoding *succeeds* and either a decoded
dimension is zero or `targetWidth ≥ sourceWidth`; a failure of the decoder
itself, however, propagates as an error (it is the caller that recovers). -/
theorem c5_no_upscale_identity (decode : List Nat → Except String Img)
    (encode : Img → Nat → List Nat) (input : List Nat) (w q : Nat) :
    (∀ src, decode input = .ok src →
      src.width = 0 ∨ src.height = 0 ∨ src.width ≤ w →
      resizeJpegNearest decode encode input w q = .ok input)
    ∧ ∀ e, decode input = .error e →
        resizeJpegNearest decode encode input w q = .error e := by
  constructor
  · intro src hdec hcond
    unfold resizeJpegNearest
    rw [hdec]
    dsimp only
    rcases hcond with h | h | h
    · simp [h]
    · simp [h]
    · split
      · rfl
      · simp [Nat.min_eq_right h]
  · intro e hdec
    unfold resizeJpegNearest
    rw [hdec]

/-- Witness for `c5_no_upscale_identity`: a decodable 3×2 source and target
width 5 ≥ 3 gives back the input bytes. -/
theorem c5_no_upscale_identity_witness :
    (⟨3, 2, []⟩ : Img).width ≤ 5
    ∧ resizeJpegNearest (fun _ => .ok ⟨3, 2, []⟩) (fun _ _ => []) [1, 2] 5 60
        = .ok [1, 2] :=
  ⟨by decide,
    (c5_no_upscale_identity (fun _ => .ok ⟨3, 2, []⟩) (fun _ _ => []) [1, 2] 5 60).1
      ⟨3, 2, []⟩ rfl (Or.inr (Or.inr (by decide)))⟩

/-- Claim C6: from the initial cursor, `N` consecutive selections over a
fixed non-empty list of `N` providers return exactly the configured list in
order, and the `(N+1)`-th selection wraps around to the first provider. -/
theorem c6_round_robin (ids : List String) (h : ids ≠ []) :
    runSelections ⟨some ids, 0⟩ ids.length = ids
    ∧ runSelections ⟨some ids, 0⟩ (ids.length + 1) = ids ++ [ids.getD 0 ""] := by
  have hpos : 0 < ids.length := List.length_pos.mpr h
  have hzero : ∀ n, runSelections ⟨some ids, 0⟩ n
      = (List.range n).map fun k => ids.getD (k % ids.length) "" := by
    intro n
    rw [runSelections_formula ids h n 0 hpos]
    simp only [Nat.zero_add]
  constructor
  · rw [hzero, range_map_getD]
  · rw [hzero, List.range_succ, List.map_append, range_map_getD]
    simp [Nat.mod_self]

/-- Witness for `c6_round_robin` on a three-provider pool. -/
theorem c6_round_robin_witness :
    (["a", "b", "c"] : List String) ≠ []
    ∧ runSelections ⟨some ["a", "b", "c"], 0⟩ 3 = ["a", "b", "c"] :=
  ⟨by decide, (c6_round_robin ["a", "b", "c"] (by decide)).1⟩

/-- Claim C7: selection on an absent or empty configured list fails with the
`No LLM providers selected` error — the guard runs before any array access —
and after every successful selection on a non-empty list the cursor is a
valid index into that list. -/
theorem c7_empty_guard_and_cursor_valid (i : Nat) (ids : List String) (h : ids ≠ []) :
    selectProvider ⟨none, i⟩ = .error "No LLM providers selected"
    ∧ selectProvider ⟨some [], i⟩ = .error "No LLM providers selected"
    ∧ ∀ pid s', selectProvider ⟨some ids, i⟩ = .ok (pid, s') →
        s'.chatCompletions = some ids ∧ s'.currentProviderIndex < ids.length := by
  refine ⟨rfl, rfl, ?_⟩
  intro pid s' hsel
  rw [selectProvider_ok ids i h] at hsel
  simp only [Except.ok.injEq, Prod.mk.injEq] at hsel
  rw [← hsel.2]
  exact ⟨rfl, Nat.mod_lt _ (List.length_pos.mpr h)⟩

/-- Witness for `c7_empty_guard_and_cursor_valid`: an out-of-range starting
cursor on a two-provider list still leaves a valid cursor. -/
theorem c7_empty_guard_and_cursor_valid_witness :
    (["x", "y"] : List String) ≠ []
    ∧ (⟨some ["x", "y"], 0⟩ : ProviderState).currentProviderIndex
        < (["x", "y"] : List String).length :=
  ⟨by decide,
    ((c7_empty_guard_and_cursor_valid 5 ["x", "y"] (by decide)).2.2 ""
      ⟨some ["x", "y"], 0⟩ rfl).2⟩

/-- Claim C9, counterexample: the configured value is a JS number and is not
coerced to an integer — a configured timeout of 2.5 seconds yields a
2500 ms deadline, which is not `n * 1000` for any integer `n`. -/
theorem c9_fractional_timeout_counterexample :
    llmTimeoutOf (some (5 / 2)) = 2500
    ∧ ¬ ∃ n : ℤ, llmTimeoutOf (some (5 / 2)) = (n : ℚ) * 1000 := by
  have hval : llmTimeoutOf (some (5 / 2)) = 2500 := by
    rw [llmTimeoutOf, Option.getD_some, max_eq_right (by norm_num : (1 : ℚ) ≤ 5 / 2)]
    norm_num
  refine ⟨hval, ?_⟩
  rintro ⟨n, hn⟩
  rw [hval] at hn
  have h2 : ((2 * n : ℤ) : ℚ) = ((5 : ℤ) : ℚ) := by push_cast; linarith
  have h3 : (2 * n : ℤ) = 5 := Int.cast_injective h2
  omega

/-- Claim C9 as amended: the deadline is the configured value interpreted in
seconds with a floor of 1 (no integer coercion), converted to milliseconds;
an absent setting defaults to 90 seconds. -/
theorem c9_timeout_floor_and_scale (q : ℚ) :
    1000 ≤ llmTimeoutOf (some q)
    ∧ (1 ≤ q → llmTimeoutOf (some q) = q * 1000)
    ∧ (q ≤ 1 → llmTimeoutOf (some q) = 1000)
    ∧ llmTimeoutOf none = 90000 := by
  refine ⟨?_, ?_, ?_, by norm_num [llmTimeoutOf]⟩
  · rw [llmTimeoutOf, Option.getD_some]
    have h1 : (1 : ℚ) ≤ max 1 q := le_max_left _ _
    nlinarith
  · intro h
    rw [llmTimeoutOf, Option.getD_some, max_eq_right h]
  · intro h
    rw [llmTimeoutOf, Option.getD_some, max_eq_left h]
    norm_num

/-- Witness for `c9_timeout_floor_and_scale`: a 2-second configuration gives
a 2000 ms deadline. -/
theorem c9_timeout_floor_and_scale_witness :
    (1 : ℚ) ≤ 2 ∧ llmTimeoutOf (some 2) = 2 * 1000 :=
  ⟨by norm_num, (c9_timeout_floor_and_scale 2).2.1 (by norm_num)⟩

/-- Claim C8: for a decodable source of positive height and `targetWidth`
below the source width, the image handed to the encoder has width
`targetWidth`, height `round(sh·w/sw)` floored at 1, each color byte of each
destination pixel sampled from the source pixel at
`(⌊y·sh/dh⌋, ⌊x·sw/dw⌋)` (floor on each axis independently), and a fully
opaque alpha byte on every destination pixel. -/
theorem c8_resize_geometry (decode : List Nat → Except String Img)
    (encode : Img → Nat → List Nat) (input : List Nat) (w : Nat) (src : Img)
    (hdec : decode input = .ok src) (hw : w < src.width) (hh : 0 < src.height) :
    ∃ out : Img,
      resizeJpegNearest decode encode input w 60 = .ok (encode out 60)
      ∧ out.width = w
      ∧ out.height = max 1 (jsRound (src.height * w) src.width)
      ∧ (∀ x y c, x < w → y < out.height → c < 3 →
          out.data.getD ((y * w + x) * 4 + c) 0
            = src.data.getD
                ((y * src.height / out.height * src.width + x * src.width / w) * 4 + c) 0)
      ∧ ∀ x y, x < w → y < out.height →
          out.data.getD ((y * w + x) * 4 + 3) 0 = 255 := by
  have hw0 : 0 < src.width := Nat.lt_of_le_of_lt (Nat.zero_le w) hw
  have hmin : min w src.width = w := Nat.min_eq_left (Nat.le_of_lt hw)
  refine ⟨⟨w, max 1 (jsRound (src.height * w) src.width),
    resizeData src w (max 1 (jsRound (src.height * w) src.width))⟩, ?_, rfl, rfl, ?_, ?_⟩
  · unfold resizeJpegNearest
    rw [hdec]
    dsimp only
    rw [if_neg (by simp; omega), hmin, if_neg (by omega)]
  · intro x y c hx hy hc
    rw [resizeData_getD src w _ x y c hx hy (by omega), if_neg (by omega)]
  · intro x y hx hy
    rw [resizeData_getD src w _ x y 3 hx hy (by omega), if_pos rfl]

/-- A concrete decodable 2×2 RGBA source image for witnessing `c8_resize_geometry`. -/
def img2 : Img :=
  ⟨2, 2, [10, 20, 30, 40, 50, 60, 70, 80, 90, 100, 110, 120, 130, 140, 150, 160]⟩

/-- Witness for `c8_resize_geometry`: downscaling the 2×2 source to width 1. -/
theorem c8_resize_geometry_witness :
    (1 < img2.width ∧ 0 < img2.height)
    ∧ ∃ out : Img,
        resizeJpegNearest (fun _ => .ok img2) (fun i _ => i.data) [0] 1 60 = .ok out.data
        ∧ out.width = 1
        ∧ out.height = max 1 (jsRound (img2.height * 1) img2.width)
        ∧ (∀ x y c, x < 1 → y < out.height → c < 3 →
            out.data.getD ((y * 1 + x) * 4 + c) 0
              = img2.data.getD
                  ((y * img2.height / out.height * img2.width + x * img2.width / 1) * 4 + c) 0)
        ∧ ∀ x y, x < 1 → y < out.height →
            out.data.getD ((y * 1 + x) * 4 + 3) 0 = 255 :=
  ⟨⟨by decide, by decide⟩,
    c8_resize_geometry (fun _ => .ok img2) (fun i _ => i.data) [0] 1 img2 rfl
      (by decide) (by decide)⟩

/-- Claim C1 is violated by the code in both directions; the spec states the
intended guarantee.  First input: enhancement enabled and the jpeg
conversion of the media object rejects (src/main.ts line 175 is outside
every try/catch) — **zero** calls reach the downstream notifier and the
conversion error escapes to the caller.  Second input: the enhancement
succeeds but the downstream notifier rejects the enhanced send (line 286,
inside the try) — the catch at line 288 forwards again, so **two** calls
reach the downstream notifier. -/
theorem c1_single_forward_violated :
    (sendNotification envConvFail ⟨some ["p1"], 0⟩ ⟨0, 0, 0⟩ "Orig title"
      (some ⟨some "orig sub", some "orig body"⟩) (some (.obj 0)) (some "icon")).calls = []
    ∧ (sendNotification envConvFail ⟨some ["p1"], 0⟩ ⟨0, 0, 0⟩ "Orig title"
        (some ⟨some "orig sub", some "orig body"⟩) (some (.obj 0)) (some "icon")).result
      = .error "convert failed"
    ∧ (sendNotification envDupSend ⟨some ["p1"], 0⟩ ⟨0, 0, 0⟩ "Orig title"
        (some ⟨some "orig sub", some "orig body"⟩) (some (.obj 0)) (some "icon")).calls.length
      = 2 := by
  decide

/-- Claim C2 is violated by the code; the spec states the intended policy.
When the downstream notifier rejects the *final* (enhanced) forward, the
rejection is caught — not propagated — and a second downstream call is made,
whose arguments moreover carry the LLM body/subtitle (the `options` object
was already mutated): the caller sees success.  Conversely, a media
conversion failure — which is *not* a failure of the final forward call —
does propagate to the caller (with no notification delivered at all). -/
theorem c2_propagation_policy_violated :
    (sendNotification envDupSend ⟨some ["p1"], 0⟩ ⟨0, 0, 0⟩ "Orig title"
      (some ⟨some "orig sub", some "orig body"⟩) (some (.obj 0)) (some "icon")).result
      = .ok ()
    ∧ (sendNotification envDupSend ⟨some ["p1"], 0⟩ ⟨0, 0, 0⟩ "Orig title"
        (some ⟨some "orig sub", some "orig body"⟩) (some (.obj 0)) (some "icon")).calls
      = [⟨"New Title", some ⟨some "New Sub", some "New Body"⟩, some (.obj 0), some "icon"⟩,
         ⟨"Orig title", some ⟨some "New Sub", some "New Body"⟩, some (.obj 0), some "icon"⟩]
    ∧ (sendNotification envConvFail ⟨some ["p1"], 0⟩ ⟨0, 0, 0⟩ "Orig title"
        (some ⟨some "orig sub", some "orig body"⟩) (some (.obj 0)) (some "icon")).result
      = .error "convert failed" := by
  decide

/-- Claim C10: every invocation — including ones that reject — increments
`total` exactly once and exactly one of `withSnapshot` / `withoutSnapshot`
exactly once (so no counter is ever reset or decremented), and the invariant
`total = withSnapshot + withoutSnapshot` is preserved. -/
theorem c10_stats_invariant (env : Env) (ps : ProviderState) (stats0 : Stats)
    (title : String) (options : Option NotifierOptions) (media : Option MediaIn)
    (icon : Option String) :
    (sendNotification env ps stats0 title options media icon).stats.total = stats0.total + 1
    ∧ (((sendNotification env ps stats0 title options media icon).stats.withSnapshot
          = stats0.withSnapshot + 1
        ∧ (sendNotification env ps stats0 title options media icon).stats.withoutSnapshot
          = stats0.withoutSnapshot)
      ∨ ((sendNotification env ps stats0 title options media icon).stats.withSnapshot
          = stats0.withSnapshot
        ∧ (sendNotification env ps stats0 title options media icon).stats.withoutSnapshot
          = stats0.withoutSnapshot + 1))
    ∧ (stats0.total = stats0.withSnapshot + stats0.withoutSnapshot →
        (sendNotification env ps stats0 title options media icon).stats.total
          = (sendNotification env ps stats0 title options media icon).stats.withSnapshot
            + (sendNotification env ps stats0 title options media icon).stats.withoutSnapshot) := by
  have h12 : (sendNotification env ps stats0 title options media icon).stats.total
        = stats0.total + 1
      ∧ (((sendNotification env ps stats0 title options media icon).stats.withSnapshot
            = stats0.withSnapshot + 1
          ∧ (sendNotification env ps stats0 title options media icon).stats.withoutSnapshot
            = stats0.withoutSnapshot)
        ∨ ((sendNotification env ps stats0 title options media icon).stats.withSnapshot
            = stats0.withSnapshot
          ∧ (sendNotification env ps stats0 title options media icon).stats.withoutSnapshot
            = stats0.withoutSnapshot + 1)) := by
    simp only [sendNotification]
    repeat' split
    all_goals first
      | exact ⟨rfl, Or.inl ⟨rfl, rfl⟩⟩
      | exact ⟨rfl, Or.inr ⟨rfl, rfl⟩⟩
  refine ⟨h12.1, h12.2, fun h => ?_⟩
  have hc := h12.1
  rcases h12.2 with ⟨ha, hb⟩ | ⟨ha, hb⟩ <;> omega

/-- Witness for `c10_stats_invariant`, discharging the invariant-preservation
hypothesis at the zero counters. -/
theorem c10_stats_invariant_witness :
    (sendNotification envEnhanceOk ⟨some ["p1"], 0⟩ ⟨0, 0, 0⟩ "T" none
        (some (.obj 0)) none).stats.total
      = (sendNotification envEnhanceOk ⟨some ["p1"], 0⟩ ⟨0, 0, 0⟩ "T" none
          (some (.obj 0)) none).stats.withSnapshot
        + (sendNotification envEnhanceOk ⟨some ["p1"], 0⟩ ⟨0, 0, 0⟩ "T" none
            (some (.obj 0)) none).stats.withoutSnapshot :=
  (c10_stats_invariant envEnhanceOk ⟨some ["p1"], 0⟩ ⟨0, 0, 0⟩ "T" none
    (some (.obj 0)) none).2.2 (by decide)

/-- Claim C4, counterexample: the inbound `options` object *is* mutated —
after a successful enhancement the caller's options carry the LLM subtitle
and body (src/main.ts lines 282-284 assign into the caller's object), so the
inbound tuple is not left unchanged. -/
theorem c4_options_mutated_counterexample :
    (sendNotification envEnhanceOk ⟨some ["p1"], 0⟩ ⟨0, 0, 0⟩ "Orig title"
      (some ⟨some "orig sub", some "orig body"⟩) (some (.obj 0)) (some "icon")).optionsAfter
      = some ⟨some "New Sub", some "New Body"⟩
    ∧ some (⟨some "New Sub", some "New Body"⟩ : NotifierOptions)
      ≠ some (⟨some "orig sub", some "orig body"⟩ : NotifierOptions) := by
  decide

/-- Claim C4 as amended: `media` and `icon` are forwarded unchanged to the
downstream notifier on every path, and the caller's `options` object is
replaced by a fresh one on no path (`optionsAfter` is present exactly when
the caller passed options) — but on the enhancement path that object is
mutated in place (`body`/`subtitle` overwritten), rather than a new outgoing
tuple being produced. -/
theorem c4_media_icon_preserved (env : Env) (ps : ProviderState) (stats0 : Stats)
    (title : String) (options : Option NotifierOptions) (media : Option MediaIn)
    (icon : Option String) :
    ((sendNotification env ps stats0 title options media icon).calls.all
      fun c => decide (c.media = media) && decide (c.icon = icon)) = true
    ∧ (sendNotification env ps stats0 title options media icon).optionsAfter.isSome
      = options.isSome := by
  constructor
  · simp only [sendNotification]
    repeat' split
    all_goals simp
  · simp only [sendNotification]
    repeat' split
    all_goals simp
